import Mathlib

/-!
Shallow embedding of the commitstreams-server backend (Express + Mongoose, JS)
and proofs about the behaviour of its auth / follow / role / repository flows.

Source files embedded:
- src/unnamed/part_000 : User mongoose schema (csFollowers / csFollowing arrays),
  the Role router, and the repository domain service
  (create / search / getById / updateById / deleteById / fetchGitHubRepoDetails).
- src/src/domains/user/api.js : User router (GET /:id/follow, DELETE /:id, ...).
- src/src/server.js : createExpressApp (POST /api/login handler) and
  defineErrorHandlingMiddleware.

JS strings are Lean `String`, JS numbers are `Nat`, a possibly-absent JS value
is `Option`, a JS throw is `Except`. Mongoose document ids are strings.
-/

namespace CommitStreams

/-- Modelled from the spec: the `AppError` class
(src/libraries/error-handling/AppError, not under src/). Its call sites pass
`(name, message, HTTPStatus?)` — e.g. `new AppError('Cannot follow yourself',
'Cannot follow yourself', 400)` — and the error middleware in src/src/server.js
reads `error?.HTTPStatus`, so it carries a name, a message and an optional
numeric HTTP status. `isTrusted` is the flag the error middleware sets. -/
structure AppError where
  name : String
  message : String
  HTTPStatus : Option Nat := none
  isTrusted : Option Bool := none
deriving Repr, DecidableEq

/-- JS `x || d` on an optional number: `undefined`, `null` and `0` are falsy. -/
def jsOrNat : Option Nat → Nat → Nat
  | none, d => d
  | some n, d => if n = 0 then d else n

/-- The JSON body produced by the outermost error middleware:
`{ ...appError, errorMessage: appError.message }`. -/
structure ErrorBody where
  name : String
  message : String
  errorMessage : String
deriving Repr, DecidableEq

/-- An HTTP response consisting of a status code and an error body. -/
structure ErrorResponse where
  status : Nat
  body : ErrorBody
deriving Repr, DecidableEq

/-- Modelled from the spec: `errorHandler.handleError`
(src/libraries/error-handling, not under src/). Per the spec the outermost
handler "converts any uncaught error into a JSON body with status code and
message": handleError normalizes the uncaught error into an app error,
preserving its message. -/
def handleError (e : AppError) : AppError := e

/-- src/src/server.js, defineErrorHandlingMiddleware (lines 241-260):
sets `isTrusted` to true when it is `undefined`/`null`, runs
`errorHandler.handleError`, and responds with status
`error?.HTTPStatus || 500` and body `{ ...appError, errorMessage: appError.message }`. -/
def errorHandlingMiddleware (error : AppError) : ErrorResponse :=
  let error :=
    if error.isTrusted = none then { error with isTrusted := some true } else error
  let appError := handleError error
  { status := jsOrNat error.HTTPStatus 500
    body :=
      { name := appError.name
        message := appError.message
        errorMessage := appError.message } }

/-! ## User follow model

src/unnamed/part_000 (lines 94-111): the User schema keeps
`csFollowers` and `csFollowing` as plain arrays of `{ _id, date }` subdocuments. -/

/-- One `{ _id: ObjectId, date: Date }` subdocument of `csFollowers` /
`csFollowing` (src/unnamed/part_000, lines 94-105). -/
structure FollowEdge where
  uid : String
  date : Nat
deriving Repr, DecidableEq

/-- The slice of a User document the follow flow touches
(src/unnamed/part_000, lines 4-112). -/
structure UserDoc where
  uid : String
  csFollowers : List FollowEdge := []
  csFollowing : List FollowEdge := []
deriving Repr, DecidableEq

/-- Modelled from the spec: the user service's `followUser`
(src/domains/user/service.js, not under src/). Per the spec it "adds a
timestamped edge in both directions (follower/following lists)" and the
"source appends without a duplicate check": it pushes a `{ _id, date }` entry
onto the caller's `csFollowing` and the target's `csFollowers`
unconditionally. -/
def followUser (caller target : UserDoc) (now : Nat) : UserDoc × UserDoc :=
  ({ caller with csFollowing := caller.csFollowing ++ [⟨target.uid, now⟩] },
   { target with csFollowers := target.csFollowers ++ [⟨caller.uid, now⟩] })

/-- Outcome of the `GET /:id/follow` handler: either the error handed to
`next(error)` (no service call made, documents untouched) or the updated
caller/target pair produced by `followUser`. -/
inductive FollowOutcome
  | errored (e : AppError) (caller target : UserDoc)
  | followed (caller target : UserDoc)
deriving Repr, DecidableEq

/-- src/src/domains/user/api.js, `GET /:id/follow` handler (lines 60-81):
`currentUserId` is the authenticated user's id; when it equals the path id the
handler throws `AppError('Cannot follow yourself', 'Cannot follow yourself', 400)`
(caught and passed to `next`), otherwise it calls `followUser`. -/
def followRoute (currentUser target : UserDoc) (now : Nat) : FollowOutcome :=
  if currentUser.uid = target.uid then
    .errored ⟨"Cannot follow yourself", "Cannot follow yourself", some 400, none⟩
      currentUser target
  else
    let (c, t) := followUser currentUser target now
    .followed c t

/-- Number of follow edges recorded toward a given user id. -/
def edgeCount (edges : List FollowEdge) (uid : String) : Nat :=
  (edges.filter (fun e => e.uid = uid)).length

/-! ## Token Codec

Modelled from the spec: `encryptToken` / `decryptToken` live in src/auth,
which is not under src/ (only the use site
`decryptToken(accessToken, accessTokenIV)` in src/unnamed/part_000 line 457
is). The spec's contract: `encrypt(plaintext) -> (ciphertext, iv)`,
`decrypt(ciphertext, iv) -> plaintext`, a symmetric cipher under a fixed key
with a freshly generated IV per encryption. We model plaintexts, keys and IVs
as byte lists (each byte < 256) and the cipher as a keyed stream transform:
byte i of the ciphertext is `(plain_i + pad(i)) % 256`, where the pad is
derived from the key and the IV. -/

/-- Keystream byte i, derived from the key and the IV (both cycled). -/
def padByte (key iv : List Nat) (i : Nat) : Nat :=
  ((key.getD (i % max key.length 1) 0) + (iv.getD (i % max iv.length 1) 0)) % 256

/-- Encrypt a byte list starting at stream position i. -/
def encBytes (key iv : List Nat) : Nat → List Nat → List Nat
  | _, [] => []
  | i, b :: bs => (b + padByte key iv i) % 256 :: encBytes key iv (i + 1) bs

/-- Decrypt a byte list starting at stream position i. -/
def decBytes (key iv : List Nat) : Nat → List Nat → List Nat
  | _, [] => []
  | i, b :: bs => (b + 256 - padByte key iv i) % 256 :: decBytes key iv (i + 1) bs

/-- Modelled from the spec: `encryptToken(plaintext)` returns the ciphertext
together with the freshly generated IV used for this encryption (the IV is a
parameter standing for the randomness source). -/
def encryptToken (key iv token : List Nat) : List Nat × List Nat :=
  (encBytes key iv 0 token, iv)

/-- Modelled from the spec: `decryptToken(ciphertext, iv)` recovers the
plaintext under the same key. -/
def decryptToken (key : List Nat) (ciphertext iv : List Nat) : List Nat :=
  decBytes key iv 0 ciphertext

/-! ## Local login flow (POST /api/login)

The handler is src/src/server.js lines 147-169; the passport `localStrategy`
it drives lives in src/auth, which is not under src/. -/

/-- A Credential Store user record as the login flow sees it: a username, an
optional bcrypt password hash, and a display name standing for the remaining
public profile fields. -/
structure StoredUser where
  username : String
  password : Option String := none
  displayName : String := ""
deriving Repr, DecidableEq

/-- Modelled from the spec: the bcrypt salted hash used by the Local Auth
Strategy (src/auth, not under src/), abstracted as an injective tagging
function — the proofs only use that equal hashes come from equal passwords
at the concrete witness inputs. -/
def bcryptHash (pw : String) : String := "bcrypt$10$" ++ pw

/-- Modelled from the spec: the passport `localStrategy` (src/auth, not under
src/). Per spec 4.2 it "looks up Credential Store by username", compares the
password against the stored hash, and on success returns the User record;
on a missing user, a missing hash or a mismatch it yields no user. -/
def localStrategy (store : List StoredUser) (username pw : String) :
    Option StoredUser :=
  match store.find? (fun u => u.username = username) with
  | none => none
  | some u =>
    match u.password with
    | none => none
    | some h => if h = bcryptHash pw then some u else none

/-- The user object serialized into the login response, as an association
list of JSON keys: the stored record's own enumerable fields, including the
`password` key when the record has one. -/
def userJsonFields (u : StoredUser) : List (String × String) :=
  [("username", u.username)]
    ++ (match u.password with
        | some h => [("password", h)]
        | none => [])
    ++ [("displayName", u.displayName)]

/-- Response of the POST /api/login handler: the HTTP status and, on success,
the serialized user object. -/
structure LoginResponse where
  status : Nat
  message : String
  user : Option (List (String × String)) := none
deriving Repr, DecidableEq

/-- src/src/server.js, POST /api/login handler (lines 147-169): runs the
local strategy; with no user it responds 401 `{ message: ... }`; on success it
logs the user in and responds with
`const { password, ...userWithoutPassword } = user` — the user object minus
its `password` key. -/
def loginHandler (store : List StoredUser) (username pw : String) :
    LoginResponse :=
  match localStrategy store username pw with
  | none => { status := 401, message := "Authentication failed" }
  | some u =>
    { status := 200
      message := "Login successful"
      user := some ((userJsonFields u).filter (fun kv => kv.1 ≠ "password")) }

/-! ## Role router (src/unnamed/part_000, lines 145-296)

The routing table transcribed literally: each route's HTTP method, path, and
the ordered middleware chain in front of the handler (`logRequest`,
`isAuthorized`, `validateRequest` instances), in source order. -/

/-- One Express route registration: method, path, and middleware names in
registration order (the async handler runs after all of them). -/
structure RouteDef where
  method : String
  path : String
  middlewares : List String
deriving Repr, DecidableEq

/-- The Role router's registrations, in source order
(src/unnamed/part_000, lines 149-293). -/
def roleRoutes : List RouteDef :=
  [ ⟨"get", "/search", ["logRequest", "validateRequest(searchSchema,query)"]⟩,
    ⟨"get", "/count", ["logRequest", "validateRequest(searchSchema,query)"]⟩,
    ⟨"post", "/",
      ["logRequest", "isAuthorized", "validateRequest(createSchema)"]⟩,
    ⟨"get", "/:id", ["logRequest", "validateRequest(idSchema,param)"]⟩,
    ⟨"put", "/:id",
      ["logRequest", "isAuthorized", "validateRequest(idSchema,param)",
       "validateRequest(updateSchema)"]⟩,
    ⟨"delete", "/:id",
      ["logRequest", "isAuthorized", "validateRequest(idSchema,param)"]⟩,
    ⟨"get", "/:id/permissions",
      ["logRequest", "validateRequest(idSchema,param)"]⟩,
    ⟨"put", "/:id/permissions",
      ["logRequest", "isAuthorized", "validateRequest(idSchema,param)",
       "validateRequest(permissionsSchema)"]⟩ ]

/-- A route mutates the resource when its HTTP method is POST, PUT or
DELETE. -/
def isMutating (r : RouteDef) : Bool :=
  r.method = "post" || r.method = "put" || r.method = "delete"

/-- The route's middleware chain contains the Authorization Gate, so the gate
runs before the handler. -/
def hasAuthGate (r : RouteDef) : Bool :=
  r.middlewares.contains "isAuthorized"

/-! ## Repository domain service (src/unnamed/part_000, lines 299-494) -/

/-- The `owner` subdocument of the repository schema
(src/unnamed/part_000, lines 391-396). -/
structure RepoOwner where
  login : String
  id : Nat
  avatar_url : String
  ownerType : String
deriving Repr, DecidableEq

/-- The `license` subdocument (src/unnamed/part_000, lines 414-420). -/
structure RepoLicense where
  key : String
  name : String
  spdx_id : String
  url : String
  node_id : String
deriving Repr, DecidableEq

/-- A GitHub API repository response, restricted to the fields the mappers
read (src/unnamed/part_000, lines 384-444). Dates are epoch numbers. -/
structure GithubResponse where
  id : Nat
  node_id : String
  name : String
  full_name : String
  isPrivate : Bool
  owner : RepoOwner
  html_url : String
  description : String
  fork : Bool
  url : String
  created_at : Nat
  updated_at : Nat
  pushed_at : Nat
  homepage : String
  size : Nat
  stargazers_count : Nat
  watchers_count : Nat
  language : String
  languages : List String
  forks_count : Nat
  archived : Bool
  disabled : Bool
  open_issues_count : Nat
  license : RepoLicense
  topics : List String
  visibility : String
  default_branch : String
deriving Repr, DecidableEq

/-- A repository document: the store's `_id` plus the mapped GitHub fields. -/
structure RepoDoc where
  docId : String
  id : Nat
  node_id : String
  name : String
  full_name : String
  isPrivate : Bool
  owner : RepoOwner
  html_url : String
  description : String
  fork : Bool
  url : String
  created_at : Nat
  updated_at : Nat
  pushed_at : Nat
  homepage : String
  size : Nat
  stargazers_count : Nat
  watchers_count : Nat
  language : String
  languages : List String
  forks_count : Nat
  archived : Bool
  disabled : Bool
  open_issues_count : Nat
  license : RepoLicense
  topics : List String
  visibility : String
  default_branch : String
deriving Repr, DecidableEq

/-- src/unnamed/part_000, `mapGithubResponseToSchema` (lines 384-425): the
full field mapping used on first sync, here producing the document stored
under a fresh `_id`. -/
def mapGithubResponseToSchema (docId : String) (r : GithubResponse) :
    RepoDoc :=
  { docId := docId
    id := r.id
    node_id := r.node_id
    name := r.name
    full_name := r.full_name
    isPrivate := r.isPrivate
    owner := r.owner
    html_url := r.html_url
    description := r.description
    fork := r.fork
    url := r.url
    created_at := r.created_at
    updated_at := r.updated_at
    pushed_at := r.pushed_at
    homepage := r.homepage
    size := r.size
    stargazers_count := r.stargazers_count
    watchers_count := r.watchers_count
    language := r.language
    languages := r.languages
    forks_count := r.forks_count
    archived := r.archived
    disabled := r.disabled
    open_issues_count := r.open_issues_count
    license := r.license
    topics := r.topics
    visibility := r.visibility
    default_branch := r.default_branch }

/-- src/unnamed/part_000, `mapSelectedGithubResponseToSchema`
(lines 427-444): the update payload built on a subsequent sync — exactly
these fourteen keys and no identity field. Applying it to an existing
document is Mongoose's `findByIdAndUpdate` field-level `$set` of the listed
keys. -/
def applySelectedGithubResponse (doc : RepoDoc) (r : GithubResponse) :
    RepoDoc :=
  { doc with
    description := r.description
    updated_at := r.updated_at
    pushed_at := r.pushed_at
    homepage := r.homepage
    size := r.size
    stargazers_count := r.stargazers_count
    watchers_count := r.watchers_count
    language := r.language
    languages := r.languages
    forks_count := r.forks_count
    archived := r.archived
    disabled := r.disabled
    open_issues_count := r.open_issues_count
    topics := r.topics }

/-- src/unnamed/part_000, `updateById` (lines 362-371):
`findByIdAndUpdate(id, data, { new: true })` — apply the selected-field
payload to the document with the given `_id` and return the updated document
(`null` when no document has that `_id`). -/
def repoUpdateById (store : List RepoDoc) (docId : String)
    (r : GithubResponse) : Option RepoDoc × List RepoDoc :=
  match store.find? (fun d => d.docId = docId) with
  | none => (none, store)
  | some d =>
    let d' := applySelectedGithubResponse d r
    (some d',
     store.map (fun x => if x.docId = docId then d' else x))

/-- src/unnamed/part_000, `create` (lines 310-322): save a new document built
from the full mapping and return it. -/
def repoCreate (store : List RepoDoc) (doc : RepoDoc) :
    RepoDoc × List RepoDoc :=
  (doc, store ++ [doc])

/-- src/unnamed/part_000, `fetchGitHubRepoDetails` (lines 446-485), from the
point where the GitHub response is in hand (token decryption and the network
fetch are the `response` argument): look up an existing document by the
provider's numeric `id`; if one exists, update it with
`mapSelectedGithubResponseToSchema` via `updateById`; otherwise create a new
document from `mapGithubResponseToSchema`. `freshId` is the store-assigned
`_id` of a newly created document. -/
def fetchGitHubRepoDetails (store : List RepoDoc) (response : GithubResponse)
    (freshId : String) : Option RepoDoc × List RepoDoc :=
  match store.find? (fun d => d.id = response.id) with
  | some existingRepository =>
    repoUpdateById store existingRepository.docId response
  | none =>
    let (created, store') :=
      repoCreate store (mapGithubResponseToSchema freshId response)
    (some created, store')

/-- A JS runtime error (e.g. the `TypeError` raised by dereferencing a member
of `null`), as caught by a service's `catch (error)` block. -/
structure JsError where
  message : String
deriving Repr, DecidableEq

/-- JS `item._id` where `item` may be `null`: member access on `null` throws
a `TypeError`; otherwise it yields the document's `_id`. -/
def jsMemberId : Option RepoDoc → Except JsError String
  | none => .error ⟨"Cannot read properties of null"⟩
  | some d => .ok d.docId

/-- src/unnamed/part_000, repository `getById` (lines 351-360):
`findById(id)`, then `logger.info(..., { id, _id: item._id })` — the `_id`
dereference happens before any null check, so a missing document raises a
`TypeError` that the `catch` block wraps as
`AppError('Failed to get repository', error.message)` with no `HTTPStatus`. -/
def repoGetById (store : List RepoDoc) (id : String) :
    Except AppError (Option RepoDoc) :=
  let item := store.find? (fun d => d.docId = id)
  match jsMemberId item with
  | .error e =>
    .error { name := "Failed to get repository", message := e.message }
  | .ok _ => .ok item

/-- JS falsiness of an optional string: `undefined`, `null` and `""` are
falsy. -/
def falsyStr : Option String → Bool
  | none => true
  | some s => s = ""

/-- The `{ username, repository }` search payload
(src/unnamed/part_000, line 326). -/
structure SearchPayload where
  username : Option String := none
  repository : Option String := none
deriving Repr, DecidableEq

/-- src/unnamed/part_000, repository `search` (lines 324-349): destructure
`searchPayload ?? {}`; if `!username || !repository`, throw
`AppError('Username and Repository are required', 'Bad Request', 400)` — that
throw is caught by the function's own `catch`, which rethrows
`AppError('Failed to search repository', error.message, 400)`; otherwise
`findOne({ full_name: username + "/" + repository })`, returning the match or
`null`. -/
def repoSearch (store : List RepoDoc) (searchPayload : Option SearchPayload) :
    Except AppError (Option RepoDoc) :=
  let q := searchPayload.getD {}
  if falsyStr q.username || falsyStr q.repository then
    .error
      { name := "Failed to search repository"
        message := "Bad Request"
        HTTPStatus := some 400 }
  else
    match q.username, q.repository with
    | some username, some repository =>
      .ok (store.find? (fun d => d.full_name = username ++ "/" ++ repository))
    | _, _ => .ok none

/-- src/unnamed/part_000, repository `deleteById` (lines 373-382) — the
implementation the user router's DELETE handler relies on (the user domain's
service file is not under src/; this is the service shape the claim cites):
`findByIdAndDelete(id)` and then `return true` unconditionally, with no
existence check on what was deleted. -/
def deleteById (store : List UserDoc) (id : String) :
    Bool × List UserDoc :=
  (true, store.filter (fun u => u.uid ≠ id))

/-- Response of the user DELETE /:id handler. -/
structure DeleteResponse where
  status : Nat
  message : String
deriving Repr, DecidableEq

/-- src/src/domains/user/api.js, `DELETE /:id` handler (lines 132-144):
`await deleteById(req.params.id)` and respond 204 — no existence check. -/
def userDeleteRoute (store : List UserDoc) (id : String) :
    DeleteResponse × List UserDoc :=
  let (_, store') := deleteById store id
  ({ status := 204, message := "model is deleted" }, store')

/-! ## Theorems -/

/-- Decryption inverts encryption bytewise, for any stream position. -/
theorem decBytes_encBytes (key iv : List Nat) (bs : List Nat)
    (h : ∀ b ∈ bs, b < 256) (i : Nat) :
    decBytes key iv i (encBytes key iv i bs) = bs := by
  induction bs generalizing i with
  | nil => rfl
  | cons b bs ih =>
    have hb : b < 256 := h b (List.mem_cons_self b bs)
    have hp : padByte key iv i < 256 := Nat.mod_lt _ (by norm_num)
    simp only [encBytes, decBytes]
    rw [ih (fun x hx => h x (List.mem_cons_of_mem b hx)) (i + 1)]
    have : ((b + padByte key iv i) % 256 + 256 - padByte key iv i) % 256 = b := by
      omega
    rw [this]

/-- C3: for every token (byte string), decrypting the ciphertext produced by
`encryptToken` with the freshly generated IV returned alongside it yields the
token back: `decrypt(encrypt(T)) == T`. -/
theorem decryptToken_encryptToken (key iv token : List Nat)
    (h : ∀ b ∈ token, b < 256) :
    decryptToken key (encryptToken key iv token).1
      (encryptToken key iv token).2 = token := by
  simpa [encryptToken, decryptToken] using decBytes_encBytes key iv token h 0

/-- Witness for the token round trip at a concrete key, IV and token. -/
theorem decryptToken_encryptToken_witness :
    (∀ b ∈ [72, 105, 255, 0], b < 256) ∧
    decryptToken [19, 7] (encryptToken [19, 7] [200, 3] [72, 105, 255, 0]).1
      (encryptToken [19, 7] [200, 3] [72, 105, 255, 0]).2 = [72, 105, 255, 0] :=
  ⟨by decide, decryptToken_encryptToken [19, 7] [200, 3] [72, 105, 255, 0] (by decide)⟩

/-- C1: calling `followUser(A, B)` twice on distinct users A, B appends a
second `{ _id, date }` entry to both lists — the edge count from A to B
after two calls is 2, not 1: the follower/following lists are append-only
arrays, not sets keyed by user id, so the required idempotence invariant
fails on the concrete input A = "a", B = "b". -/
theorem followUser_twice_duplicates :
    edgeCount
      ((followUser (followUser ⟨"a", [], []⟩ ⟨"b", [], []⟩ 1).1
        (followUser ⟨"a", [], []⟩ ⟨"b", [], []⟩ 1).2 2).1).csFollowing "b" = 2 ∧
    edgeCount
      ((followUser (followUser ⟨"a", [], []⟩ ⟨"b", [], []⟩ 1).1
        (followUser ⟨"a", [], []⟩ ⟨"b", [], []⟩ 1).2 2).2).csFollowers "a" = 2 := by
  decide

/-- C2: for every user U, the follow route with caller equal to target yields
the `AppError('Cannot follow yourself', 'Cannot follow yourself', 400)`
outcome with both documents returned unchanged — `followUser` is never
invoked — and the error middleware surfaces that error with HTTP status
400. -/
theorem followRoute_self_validation_error (u : UserDoc) (now : Nat) :
    followRoute u u now =
      .errored ⟨"Cannot follow yourself", "Cannot follow yourself", some 400, none⟩
        u u ∧
    (errorHandlingMiddleware
      ⟨"Cannot follow yourself", "Cannot follow yourself", some 400, none⟩).status
      = 400 := by
  refine ⟨?_, by decide⟩
  simp [followRoute]

/-- A key never survives filtering on "every key different from it". -/
theorem not_mem_map_fst_filter_ne (l : List (String × String)) (k : String) :
    k ∉ (l.filter (fun kv => kv.1 ≠ k)).map Prod.fst := by
  intro hk
  rcases List.mem_map.mp hk with ⟨kv, hkv, hfst⟩
  have hp := List.of_mem_filter hkv
  simp only [ne_eq, decide_not, Bool.not_eq_true', decide_eq_false_iff_not] at hp
  exact hp hfst

/-- C4: whenever the POST /api/login handler answers 200, the serialized user
object in the response has no `password` key; whenever the local strategy
yields no user (wrong password included), the handler answers 401. -/
theorem loginHandler_strips_password (store : List StoredUser)
    (username pw : String) :
    ((loginHandler store username pw).status = 200 →
      "password" ∉
        (((loginHandler store username pw).user).getD []).map Prod.fst) ∧
    (localStrategy store username pw = none →
      (loginHandler store username pw).status = 401) := by
  unfold loginHandler
  cases h : localStrategy store username pw with
  | none => exact ⟨fun hs => by simp at hs, fun _ => rfl⟩
  | some u =>
    refine ⟨fun _ => ?_, fun hn => by simp [h] at hn⟩
    simp only [Option.getD_some]
    exact not_mem_map_fst_filter_ne (userJsonFields u) "password"

/-- Witness for the login scenario: user alice with password pw1 stored.
Logging in with the right password strips the password key; a wrong password
gives 401. -/
theorem loginHandler_strips_password_witness :
    "password" ∉
      (((loginHandler [⟨"alice", some (bcryptHash "pw1"), "Alice"⟩]
        "alice" "pw1").user).getD []).map Prod.fst ∧
    (loginHandler [⟨"alice", some (bcryptHash "pw1"), "Alice"⟩]
      "alice" "wrong").status = 401 :=
  ⟨(loginHandler_strips_password
      [⟨"alice", some (bcryptHash "pw1"), "Alice"⟩] "alice" "pw1").1 (by decide),
   (loginHandler_strips_password
      [⟨"alice", some (bcryptHash "pw1"), "Alice"⟩] "alice" "wrong").2 (by decide)⟩

/-- C5: every mutating route of the Role router (POST /, PUT /:id,
DELETE /:id, PUT /:id/permissions — exactly four) carries the `isAuthorized`
Authorization Gate in its middleware chain, so no role-mutating handler is
reachable without it. -/
theorem roleRoutes_mutating_all_authorized :
    (roleRoutes.filter isMutating).all hasAuthGate = true ∧
    (roleRoutes.filter isMutating).length = 4 := by decide

/-- C6 counterexample: an uncaught error whose `HTTPStatus` field is present
with value 0 is answered with HTTP status 500, not its `HTTPStatus`, because
the middleware computes `error?.HTTPStatus || 500` and `0` is falsy. -/
theorem errorMiddleware_present_zero_status_counterexample :
    (AppError.mk "boom" "boom" (some 0) none).HTTPStatus = some 0 ∧
    (errorHandlingMiddleware ⟨"boom", "boom", some 0, none⟩).status = 500 ∧
    (errorHandlingMiddleware ⟨"boom", "boom", some 0, none⟩).status ≠ 0 := by
  decide

/-- C6 (amended): the outermost error middleware answers with a JSON body
whose `errorMessage` is the error's message, with HTTP status equal to the
error's `HTTPStatus` field when that field is present and nonzero, and 500
otherwise (absent field — or a falsy 0). -/
theorem errorMiddleware_status_and_message (e : AppError) :
    (∀ s, e.HTTPStatus = some s → s ≠ 0 →
      (errorHandlingMiddleware e).status = s) ∧
    (e.HTTPStatus = none ∨ e.HTTPStatus = some 0 →
      (errorHandlingMiddleware e).status = 500) ∧
    (errorHandlingMiddleware e).body.errorMessage = e.message := by
  refine ⟨fun s hs hnz => ?_, fun h => ?_, ?_⟩
  · cases ht : e.isTrusted <;>
      simp [errorHandlingMiddleware, jsOrNat, hs, hnz, ht]
  · rcases h with hn | hz
    · cases ht : e.isTrusted <;>
        simp [errorHandlingMiddleware, jsOrNat, hn, ht]
    · cases ht : e.isTrusted <;>
        simp [errorHandlingMiddleware, jsOrNat, hz, ht]
  · cases ht : e.isTrusted <;> simp [errorHandlingMiddleware, handleError, ht]

/-- Witness for the amended error-middleware claim at concrete errors with
status 404, with no status, with the falsy status 0, and its body message. -/
theorem errorMiddleware_status_and_message_witness :
    (errorHandlingMiddleware ⟨"E", "E msg", some 404, none⟩).status = 404 ∧
    (errorHandlingMiddleware ⟨"F", "F msg", none, none⟩).status = 500 ∧
    (errorHandlingMiddleware ⟨"G", "G msg", some 0, none⟩).status = 500 ∧
    (errorHandlingMiddleware ⟨"E", "E msg", some 404, none⟩).body.errorMessage
      = "E msg" :=
  ⟨(errorMiddleware_status_and_message ⟨"E", "E msg", some 404, none⟩).1 404
      rfl (by decide),
   (errorMiddleware_status_and_message ⟨"F", "F msg", none, none⟩).2.1
      (Or.inl rfl),
   (errorMiddleware_status_and_message ⟨"G", "G msg", some 0, none⟩).2.1
      (Or.inr rfl),
   (errorMiddleware_status_and_message ⟨"E", "E msg", some 404, none⟩).2.2⟩

/-- In a store whose keys are distinct, searching for an element's key finds
exactly that element. -/
theorem find?_key_unique {α : Type} (f : α → String) (l : List α) (a : α)
    (hnd : (l.map f).Nodup) (ha : a ∈ l) :
    l.find? (fun x => f x = f a) = some a := by
  induction l with
  | nil => exact absurd ha (List.not_mem_nil a)
  | cons b l ih =>
    rw [List.map_cons, List.nodup_cons] at hnd
    rcases List.mem_cons.mp ha with h | h
    · subst h
      rw [List.find?_cons_of_pos _ (by simp)]
    · have hb : ¬ f b = f a := fun he => hnd.1 (he ▸ List.mem_map_of_mem f h)
      rw [List.find?_cons_of_neg _ (by simpa using hb)]
      exact ih hnd.2 h

/-- C7: when the store (with distinct `_id`s, as Mongo guarantees) holds a
document with the response's provider numeric `id`, `fetchGitHubRepoDetails`
returns that document updated by the selected mapping only: the fourteen
mirror fields take the response's values while `id`, `node_id`, `name`,
`full_name` and `owner` keep the existing document's values; when no such
document exists it creates one from the full field mapping and appends it to
the store. -/
theorem fetchGitHubRepoDetails_upsert (store : List RepoDoc)
    (response : GithubResponse) (freshId : String)
    (hnd : (store.map (fun d => d.docId)).Nodup) :
    (∀ existing, store.find? (fun d => d.id = response.id) = some existing →
      (fetchGitHubRepoDetails store response freshId).1 =
        some (applySelectedGithubResponse existing response) ∧
      (applySelectedGithubResponse existing response).id = existing.id ∧
      (applySelectedGithubResponse existing response).node_id = existing.node_id ∧
      (applySelectedGithubResponse existing response).name = existing.name ∧
      (applySelectedGithubResponse existing response).full_name = existing.full_name ∧
      (applySelectedGithubResponse existing response).owner = existing.owner ∧
      (applySelectedGithubResponse existing response).description = response.description ∧
      (applySelectedGithubResponse existing response).updated_at = response.updated_at ∧
      (applySelectedGithubResponse existing response).pushed_at = response.pushed_at ∧
      (applySelectedGithubResponse existing response).homepage = response.homepage ∧
      (applySelectedGithubResponse existing response).size = response.size ∧
      (applySelectedGithubResponse existing response).stargazers_count = response.stargazers_count ∧
      (applySelectedGithubResponse existing response).watchers_count = response.watchers_count ∧
      (applySelectedGithubResponse existing response).language = response.language ∧
      (applySelectedGithubResponse existing response).languages = response.languages ∧
      (applySelectedGithubResponse existing response).forks_count = response.forks_count ∧
      (applySelectedGithubResponse existing response).archived = response.archived ∧
      (applySelectedGithubResponse existing response).disabled = response.disabled ∧
      (applySelectedGithubResponse existing response).open_issues_count = response.open_issues_count ∧
      (applySelectedGithubResponse existing response).topics = response.topics) ∧
    (store.find? (fun d => d.id = response.id) = none →
      (fetchGitHubRepoDetails store response freshId).1 =
        some (mapGithubResponseToSchema freshId response) ∧
      (fetchGitHubRepoDetails store response freshId).2 =
        store ++ [mapGithubResponseToSchema freshId response]) := by
  constructor
  · intro existing hfind
    have hmem : existing ∈ store := List.mem_of_find?_eq_some hfind
    have hdoc : store.find? (fun d => d.docId = existing.docId) = some existing := by
      simpa using find?_key_unique (fun d => d.docId) store existing hnd hmem
    refine ⟨?_, rfl, rfl, rfl, rfl, rfl, rfl, rfl, rfl, rfl, rfl, rfl, rfl,
      rfl, rfl, rfl, rfl, rfl, rfl, rfl⟩
    simp [fetchGitHubRepoDetails, hfind, repoUpdateById, hdoc]
  · intro hnone
    exact ⟨by simp [fetchGitHubRepoDetails, hnone, repoCreate],
      by simp [fetchGitHubRepoDetails, hnone, repoCreate]⟩

/-- A concrete owner subdocument, for the upsert witness. -/
def sampleOwner : RepoOwner :=
  { login := "octocat", id := 7, avatar_url := "a.png", ownerType := "User" }

/-- A concrete license subdocument, for the upsert witness. -/
def sampleLicense : RepoLicense :=
  { key := "mit", name := "MIT License", spdx_id := "MIT", url := "lurl"
    node_id := "ln" }

/-- A concrete GitHub response, for the upsert witness. -/
def sampleResponse : GithubResponse :=
  { id := 42, node_id := "NEWNODE", name := "newname"
    full_name := "octocat/newname", isPrivate := false, owner := sampleOwner
    html_url := "h", description := "new description", fork := false
    url := "u", created_at := 1, updated_at := 20, pushed_at := 30
    homepage := "hp", size := 10, stargazers_count := 5, watchers_count := 6
    language := "js", languages := ["js"], forks_count := 2, archived := false
    disabled := false, open_issues_count := 3, license := sampleLicense
    topics := ["t1"], visibility := "public", default_branch := "main" }

/-- A concrete stored repository document with the same provider id 42 but
different mirror and identity fields, for the upsert witness. -/
def sampleRepoDoc : RepoDoc :=
  { docId := "d1", id := 42, node_id := "OLDNODE", name := "oldname"
    full_name := "octocat/oldname", isPrivate := true
    owner := { login := "octocat", id := 7, avatar_url := "old.png", ownerType := "User" }
    html_url := "oldh", description := "old description", fork := true
    url := "oldu", created_at := 0, updated_at := 2, pushed_at := 3
    homepage := "oldhp", size := 1, stargazers_count := 0, watchers_count := 0
    language := "ts", languages := ["ts"], forks_count := 0, archived := true
    disabled := true, open_issues_count := 0
    license := { key := "k", name := "n", spdx_id := "s", url := "u", node_id := "x" }
    topics := ["old"], visibility := "private", default_branch := "dev" }

/-- Witness for the upsert claim: a one-document store whose document shares
provider id 42 with the response is updated in place, selected fields
overwritten and identity fields kept. -/
theorem fetchGitHubRepoDetails_upsert_witness :
    ([sampleRepoDoc].map (fun d => d.docId)).Nodup ∧
    [sampleRepoDoc].find? (fun d => d.id = sampleResponse.id) = some sampleRepoDoc ∧
    (fetchGitHubRepoDetails [sampleRepoDoc] sampleResponse "d2").1 =
      some (applySelectedGithubResponse sampleRepoDoc sampleResponse) ∧
    (applySelectedGithubResponse sampleRepoDoc sampleResponse).node_id =
      sampleRepoDoc.node_id ∧
    (applySelectedGithubResponse sampleRepoDoc sampleResponse).description =
      sampleResponse.description := by
  have h := (fetchGitHubRepoDetails_upsert [sampleRepoDoc] sampleResponse "d2"
    (by decide)).1 sampleRepoDoc (by decide)
  exact ⟨by decide, by decide, h.1, h.2.2.1, h.2.2.2.2.2.2.1⟩

/-- C8: for every id with no matching repository document, `getById` throws
the catch-wrapped `AppError('Failed to get repository', <TypeError message>)`
— triggered by dereferencing `item._id` for logging before any null check —
whose `HTTPStatus` is absent, so the error middleware surfaces it as 500
(never as a null result or a 404 NotFoundError). -/
theorem repoGetById_missing_throws (store : List RepoDoc) (id : String)
    (h : store.find? (fun d => d.docId = id) = none) :
    repoGetById store id =
      .error ⟨"Failed to get repository", "Cannot read properties of null",
        none, none⟩ ∧
    (errorHandlingMiddleware
      ⟨"Failed to get repository", "Cannot read properties of null",
        none, none⟩).status = 500 := by
  refine ⟨?_, by decide⟩
  simp [repoGetById, h, jsMemberId]

/-- Witness: fetching a missing id from the empty store yields the wrapped
500 AppError. -/
theorem repoGetById_missing_throws_witness :
    ([] : List RepoDoc).find? (fun d => d.docId = "65a") = none ∧
    (repoGetById [] "65a" =
      .error ⟨"Failed to get repository", "Cannot read properties of null",
        none, none⟩ ∧
     (errorHandlingMiddleware
       ⟨"Failed to get repository", "Cannot read properties of null",
         none, none⟩).status = 500) :=
  ⟨rfl, repoGetById_missing_throws [] "65a" rfl⟩

/-- A falsy optional string is either absent or empty; a non-falsy one is a
nonempty string. -/
theorem falsyStr_eq_false {o : Option String} (h : falsyStr o = false) :
    ∃ s, o = some s ∧ s ≠ "" := by
  cases o with
  | none => simp [falsyStr] at h
  | some s => exact ⟨s, rfl, by simpa [falsyStr] using h⟩

/-- When the username or the repository is falsy, `search` throws the
rewrapped 400 AppError. -/
theorem repoSearch_eq_error (store : List RepoDoc)
    (searchPayload : Option SearchPayload)
    (h : falsyStr (searchPayload.getD {}).username = true ∨
      falsyStr (searchPayload.getD {}).repository = true) :
    repoSearch store searchPayload =
      .error ⟨"Failed to search repository", "Bad Request", some 400, none⟩ := by
  rcases h with h | h <;> simp [repoSearch, h]

/-- When both fields are present and nonempty, `search` returns
`findOne({ full_name: username + "/" + repository })`. -/
theorem repoSearch_eq_ok (store : List RepoDoc)
    (searchPayload : Option SearchPayload) (username repository : String)
    (hu : (searchPayload.getD {}).username = some username)
    (hr : (searchPayload.getD {}).repository = some repository)
    (hu' : username ≠ "") (hr' : repository ≠ "") :
    repoSearch store searchPayload =
      .ok (store.find?
        (fun d => d.full_name = username ++ "/" ++ repository)) := by
  simp [repoSearch, falsyStr, hu, hr, hu', hr']

/-- C9: `search` throws an AppError carrying HTTP status 400 exactly when the
payload's username or repository is missing or empty; when both are present
and nonempty it returns the document whose `full_name` is
`username ++ "/" ++ repository` (the first match, or none). -/
theorem repoSearch_spec (store : List RepoDoc)
    (searchPayload : Option SearchPayload) :
    ((∃ e, repoSearch store searchPayload = .error e ∧ e.HTTPStatus = some 400)
      ↔ (falsyStr (searchPayload.getD {}).username = true ∨
         falsyStr (searchPayload.getD {}).repository = true)) ∧
    (∀ username repository,
      (searchPayload.getD {}).username = some username →
      (searchPayload.getD {}).repository = some repository →
      username ≠ "" → repository ≠ "" →
      repoSearch store searchPayload =
        .ok (store.find?
          (fun d => d.full_name = username ++ "/" ++ repository))) := by
  refine ⟨⟨?_, ?_⟩, fun u r hu hr hu' hr' =>
    repoSearch_eq_ok store searchPayload u r hu hr hu' hr'⟩
  · rintro ⟨e, he, _⟩
    by_contra hno
    push_neg at hno
    obtain ⟨ha, hb⟩ := hno
    obtain ⟨u, hu, hu'⟩ := falsyStr_eq_false (Bool.eq_false_iff.mpr ha)
    obtain ⟨r, hr, hr'⟩ := falsyStr_eq_false (Bool.eq_false_iff.mpr hb)
    rw [repoSearch_eq_ok store searchPayload u r hu hr hu' hr'] at he
    cases he
  · intro h
    exact ⟨⟨"Failed to search repository", "Bad Request", some 400, none⟩,
      repoSearch_eq_error store searchPayload h, rfl⟩

/-- Witness: searching for octo/repo in the empty store goes through the
findOne branch; a payload missing the repository field errors with 400. -/
theorem repoSearch_spec_witness :
    ((some ⟨some "octo", some "repo"⟩ : Option SearchPayload).getD
      {}).username = some "octo" ∧
    ((some ⟨some "octo", some "repo"⟩ : Option SearchPayload).getD
      {}).repository = some "repo" ∧
    repoSearch [] (some ⟨some "octo", some "repo"⟩) =
      .ok (([] : List RepoDoc).find?
        (fun d => d.full_name = "octo" ++ "/" ++ "repo")) ∧
    (∃ e, repoSearch [] (some ⟨some "octo", none⟩) = .error e ∧
      e.HTTPStatus = some 400) :=
  ⟨rfl, rfl,
   (repoSearch_spec [] (some ⟨some "octo", some "repo"⟩)).2 "octo" "repo"
     rfl rfl (by decide) (by decide),
   ((repoSearch_spec [] (some ⟨some "octo", none⟩)).1).mpr (by decide)⟩

/-- C10: for every id, the user DELETE /:id handler responds 204 — with no
existence check, including on a store holding no user with that id — and the
service's `deleteById` returns true unconditionally. -/
theorem userDeleteRoute_always_204 (store : List UserDoc) (id : String) :
    (userDeleteRoute store id).1.status = 204 ∧
    (deleteById store id).1 = true :=
  ⟨rfl, rfl⟩

end CommitStreams
